import Mathlib

/-!
Verification development for the BilayAna lipid-bilayer analysis code
(src/bilana/analysis: leaflets.py, energy.py, neighbors.py).

The Python functions relevant to the claims are shallowly embedded below:
pure numeric code becomes Lean functions over ℚ/ℤ/ℕ, the small amount of
stateful code (file-existence skip logic) becomes explicit state passing
over a string-keyed file-system model, and fallible code returns
Option/Except.  Each definition cites the source lines it embeds.
-/

namespace Bilana

/- ### Leaflet orientation — src/bilana/analysis/leaflets.py -/

/-- Component-wise difference of two 3-vectors (`atompos1 - atompos2` on
numpy arrays, leaflets.py line 28).  Float coordinates are embedded as ℚ. -/
def sub3 (a b : ℚ × ℚ × ℚ) : ℚ × ℚ × ℚ :=
  (a.1 - b.1, a.2.1 - b.2.1, a.2.2 - b.2.2)

/-- `np.dot` on 3-vectors (leaflets.py line 29). -/
def dot3 (a b : ℚ × ℚ × ℚ) : ℚ :=
  a.1 * b.1 + a.2.1 * b.2.1 + a.2.2 * b.2.2

/-- The fixed bilayer-normal axis `np.array([0.0, 0.0, 1.0])` used as the
default `axis` argument (leaflets.py line 26). -/
def zAxis : ℚ × ℚ × ℚ := (0, 0, 1)

/-- leaflets.py lines 26-30:
`molecule_leaflet_orientation(atompos1, atompos2)` computes
`new_coords = atompos1 - atompos2`, `cos = dot(new_coords, axis)/norm(new_coords)`
with `axis = (0,0,1)`, and returns `0 if cos <= 0 else 1`.
Since the norm is strictly positive, `cos ≤ 0` is equivalent to
`dot(new_coords, axis) ≤ 0` (see `div_nonpos_iff_of_pos_denom` below), which
is the test used here. -/
def molecule_leaflet_orientation (atompos1 atompos2 : ℚ × ℚ × ℚ) : ℤ :=
  if dot3 (sub3 atompos1 atompos2) zAxis ≤ 0 then 0 else 1

/-- leaflets.py lines 76-79 in `create_leaflet_assignment_file`:
`if leaflet: sum_lower += 1 else: sum_upper += 1` (Python int truthiness),
i.e. a returned leaflet value of 1 is counted as "lower", 0 as "upper". -/
def leaflet_count_update (leaflet : ℤ) (sum_upper sum_lower : ℕ) : ℕ × ℕ :=
  if leaflet ≠ 0 then (sum_upper, sum_lower + 1) else (sum_upper + 1, sum_lower)

/-- leaflets.py lines 93-102, the inlined end-of-file duplicate of the
orientation rule in `create_leaflet_assignment_file`:
`if cos <= 0: sum_upper += 1; leaflet = 0 else: sum_lower += 1; leaflet = 1`.
Returns (leaflet, new sum_upper, new sum_lower). -/
def leaflet_final_block (coord_head coord_base : ℚ × ℚ × ℚ)
    (sum_upper sum_lower : ℕ) : ℤ × ℕ × ℕ :=
  if dot3 (sub3 coord_head coord_base) zAxis ≤ 0 then (0, sum_upper + 1, sum_lower)
  else (1, sum_upper, sum_lower + 1)

/- ### Energy-run fragment count — src/bilana/analysis/energy.py -/

/-- energy.py lines 90-93 in `Energy.run_calculation` (repeated verbatim at
lines 340-343 in `Energy.write_energyfile` and lines 441-444 in
`Energy.check_exist_xvgs`):
`if nneibs % denominator == 0: n = nneibs//denominator else: n = nneibs//denominator + 1`. -/
def number_of_groupfragments (nneibs denominator : ℕ) : ℕ :=
  if nneibs % denominator == 0 then nneibs / denominator else nneibs / denominator + 1

/-- Ceiling division on ℕ: `ceil(n/d) = (n + d - 1) / d` for `d > 0`. -/
def ceilDiv (n d : ℕ) : ℕ := (n + d - 1) / d

/- ### Neighbor-table rows — src/bilana/analysis/neighbors.py -/

/-- neighbors.py lines 66-67 in `Neighbors.determine_neighbors`:
`neibresid = [self.index_to_resid[x] for x in neibindeces]` — the
engine-reported atom indices are translated to residue ids one by one,
without any deduplication. -/
def determine_neighbors_row_ids (index_to_resid : ℤ → ℤ) (neibindeces : List ℤ) : List ℤ :=
  neibindeces.map index_to_resid

/-- neighbors.py line 68: `residlist = ','.join([str(x) for x in neibresid])`. -/
def determine_neighbors_row_string (ids : List ℤ) : String :=
  String.intercalate "," (ids.map toString)

/-- neighbors.py lines 306-307 in `get_neighbor_dict`:
`neiblist = [int(x) for x in cols[3].split(',')]; neiblist = list(set(neiblist))`
— deduplication happens only at parse time.  Python's `list(set(...))` has
unspecified order; it is modelled as `List.dedup` (callers use it only as a
set: they take unions and count distinct members). -/
def get_neighbor_dict_neiblist (ids : List ℤ) : List ℤ := ids.dedup

/- ### Neighbor-search selection files — neighbors.py lines 71-148 -/

/-- neighbors.py lines 71-148, `Neighbors.create_selectionfile_neighborsearch`:
returns `none` when the host residue's species is not among the configured
molecules (lines 80-82 — the caller then skips the residue), otherwise the
selection text written for the chosen reference-atom strategy, or the
InvalidInput `ValueError("Wrong input for refatoms with: ...")` (lines
145-147) for an unknown strategy name.  The registry lookups
(`central_atom_of`, `tailcarbons_of`, the species lists, the cutoff) come
from modules outside src/ and are passed in as parameters. -/
def create_selectionfile_neighborsearch (resid_to_lipid : ℤ → String)
    (molecules resnames : List String) (ref_atm : String → String)
    (tail_atm : String → List (List String)) (cutoff : String)
    (resid : ℤ) (refatoms : String) : Option (Except String String) :=
  if resid_to_lipid resid ∉ molecules then none
  else
    let hosttype := resid_to_lipid resid
    let hoststring := "resid " ++ toString resid ++ " and (name " ++ ref_atm hosttype ++ ")"
    let neibstring_parts := String.intercalate " or "
      (resnames.map fun i => "(resname " ++ i ++ " and name " ++ ref_atm i ++ ")")
    let neibstring :=
      "((" ++ neibstring_parts ++ ") and not host) and within " ++ cutoff ++ " of host"
    if refatoms = "P" then
      some (Except.ok
        ("host =  " ++ hoststring ++ ";\n" ++ "neibs = " ++ neibstring ++ ";\n" ++ "neibs;"))
    else if refatoms = "bothtails" then
      some (Except.ok
        ("host = resid " ++ toString resid ++ " and name C34 C24 O3;\n" ++
         "allOAtoms = resname CHL1 and name O3 and not host;\n" ++
         "allTail1Atoms = resname DPPC DUPC and name C34 and not host;\n" ++
         "allTail2Atoms = resname DPPC DUPC and name C24 and not host;\n" ++
         "neibOs = allOAtoms and within " ++ cutoff ++ " of host;\n" ++
         "neibTail1 = allTail1Atoms and within " ++ cutoff ++ " of host;\n" ++
         "neibTail2 = allTail2Atoms and within " ++ cutoff ++ " of host;\n" ++
         "neibs = neibOs or neibTail1 or neibTail2;\n" ++
         "neibs;"))
    else if refatoms = "glycerol" then
      some (Except.ok
        ("host = resid " ++ toString resid ++ " and name C31 C21 O3;\n" ++
         "allOAtoms = resname CHL1 and name O3 and not host;\n" ++
         "allTail1Atoms = resname DPPC DUPC and name C31 and not host;\n" ++
         "allTail2Atoms = resname DPPC DUPC and name C21 and not host;\n" ++
         "neibOs = allOAtoms and within " ++ cutoff ++ " of host;\n" ++
         "neibTail1 = allTail1Atoms and within " ++ cutoff ++ " of host;\n" ++
         "neibTail2 = allTail2Atoms and within " ++ cutoff ++ " of host;\n" ++
         "neibs = neibOs or neibTail1 or neibTail2;\n" ++
         "neibs;"))
    else if refatoms = "tails_com" then
      let tailstr := String.join ((resnames.flatMap fun resn =>
        ([0, 1] : List ℕ).map fun tailn =>
          "tail" ++ toString tailn ++ "=(resname " ++ resn ++ " and name " ++
            String.intercalate " " ((tail_atm resn).getD tailn []) ++ ");\n"))
      some (Except.ok
        (tailstr ++
         "host1 = (resid " ++ toString resid ++ " and (tail0 or name O3));\n" ++
         "host2 = (resid " ++ toString resid ++ " and (tail1 or name O3));\n" ++
         "allOAtoms = resname CHL1 and name O3 and not (host1 or host2);\n" ++
         "neibOs = allOAtoms and (within " ++ cutoff ++ " of com of host1 or within " ++
           cutoff ++ " of com of host2);\n" ++
         "neibTail = (tail0 or tail1) and (within " ++ cutoff ++ " of com of host1 or within " ++
           cutoff ++ " of com of host2);\n" ++
         "neibs = neibOs or neibTail;\n" ++
         "neibs;"))
    else some (Except.error ("Wrong input for refatoms with: " ++ refatoms))

/- ### Flip-flop segmentation — src/bilana/analysis/leaflets.py lines 158-201 -/

/-- One row of the per-frame leaflet-assignment table consumed by
`get_flipflop_events` (columns resid, resname, leaflet, time). -/
structure FlipRow where
  resid : ℤ
  resname : String
  leaflet : ℤ
  time : ℚ
deriving DecidableEq

/-- Helper for `change_points`: keeps rows whose leaflet differs from the
immediately preceding row. -/
def change_points_go (prev : FlipRow) : List FlipRow → List FlipRow
  | [] => []
  | r :: rs =>
    if r.leaflet ≠ prev.leaflet then r :: change_points_go r rs else change_points_go r rs

/-- leaflets.py line 169: `events = fr[fr.leaflet.diff().fillna(0) != 0]` —
rows whose leaflet differs from the previous sample; the first row's
predecessor is NaN, filled with 0, so the first row is never a change point. -/
def change_points : List FlipRow → List FlipRow
  | [] => []
  | r :: rs => change_points_go r rs

/-- leaflets.py line 172: gap detection
`events[events.time.diff().fillna(0) > 10000.0]` — times of change points
whose distance to the previous change point exceeds 10000; the first change
point's diff is NaN, filled with 0, so it never starts a new segment. -/
def split_gaps : List FlipRow → List ℚ
  | a :: b :: rs =>
    if b.time - a.time > 10000 then b.time :: split_gaps (b :: rs) else split_gaps (b :: rs)
  | _ => []

/-- leaflets.py line 173: `split_times = [0] + [t for t in split_times.time]`. -/
def split_times (events : List FlipRow) : List ℚ := 0 :: split_gaps events

/-- leaflets.py lines 175-180: the segment for split boundary `l` takes the
change points with `time >= l`, bounded by `time < r` for the next boundary
except for the last segment which takes everything from `l` on. -/
def segments_from (events : List FlipRow) : List ℚ → List (List FlipRow)
  | [] => []
  | [l] => [events.filter (fun x => decide (l ≤ x.time))]
  | l :: r :: rest =>
    (events.filter fun x => decide (l ≤ x.time) && decide (x.time < r)) ::
      segments_from events (r :: rest)

/-- The list of contiguous change-point segments of one residue. -/
def segments (events : List FlipRow) : List (List FlipRow) :=
  segments_from events (split_times events)

/-- leaflets.py lines 182-185: `start = dat.iloc[0]; end = dat.iloc[-1];
if start.leaflet == end.leaflet: frames2.append([start, end])`.
(The code would raise IndexError on an empty segment; with the change-point
times nonnegative every generated segment is nonempty, and the `none` result
for an empty segment is never hit by the theorems below.) -/
def recorded_of (seg : List FlipRow) : Option (FlipRow × FlipRow) :=
  match seg.head?, seg.getLast? with
  | some s, some e => if s.leaflet = e.leaflet then some (s, e) else none
  | _, _ => none

/-- The completed round-trip pairs collected into `frames2`. -/
def round_trips (events : List FlipRow) : List (FlipRow × FlipRow) :=
  (segments events).filterMap recorded_of

/-- leaflets.py line 197: the output row of the `flipflop_complete.csv` table,
`[start.resid, start.resname, start.time, end.time, end.leaflet]`. -/
def round_trip_rows (events : List FlipRow) : List (ℤ × String × ℚ × ℚ × ℤ) :=
  (round_trips events).map fun se => (se.1.resid, se.1.resname, se.1.time, se.2.time, se.2.leaflet)

/-- leaflets.py line 187: `events[events.time.diff().fillna(1001.0) > 1000.0]`
— the first output table keeps only change points separated from their
predecessor (in the unfiltered change-point list) by more than 1000 time
units; the first change point's diff is filled with 1001 and is always kept. -/
def filtered_events_go (prev : FlipRow) : List FlipRow → List FlipRow
  | [] => []
  | r :: rs =>
    if r.time - prev.time > 1000 then r :: filtered_events_go r rs else filtered_events_go r rs

/-- The filtered change-point list written to `flipflop_events.csv`. -/
def filtered_events : List FlipRow → List FlipRow
  | [] => []
  | a :: rs => a :: filtered_events_go a rs

/- ### Energy orchestrator configuration — src/bilana/analysis/energy.py lines 24-68 -/

/-- energy.py line 24: `DENOMINATOR = 40`. -/
def DENOMINATOR : ℕ := 40

/-- energy.py line 36: the recognized part modes. -/
def knownparts : List String := ["complete", "head-tail", "head-tailhalfs", "carbons"]

/-- The per-mode configuration fields set by `Energy.__init__`. -/
structure EnergyConfig where
  molparts : List String
  part : String
  denominator : ℕ
  molparts_short : List String
  all_energies : String
deriving DecidableEq

/-- energy.py lines 27-68, `Energy.__init__`: raises
`ValueError("Part keyword specified is not known.")` for a part mode outside
`knownparts`, otherwise sets the per-mode fields (`self.part` is reset to the
empty string in mode `complete`).  The I/O performed by the constructor
(neighbor-dictionary load, logging) is irrelevant to the configuration and is
not modelled. -/
def energy_init (part neighborfilename : String) : Except String EnergyConfig :=
  if part ∉ knownparts then Except.error "Part keyword specified is not known."
  else if part = "complete" then
    Except.ok ⟨["resid_"], "", DENOMINATOR, [""],
      if neighborfilename ≠ "neighbor_info" then
        "all_energies_" ++ neighborfilename ++ ".dat"
      else "all_energies.dat"⟩
  else if part = "head-tail" then
    Except.ok ⟨["resid_h_", "resid_t_"], part, DENOMINATOR / 2, ["h_", "t_"],
      "all_energies_headtail.dat"⟩
  else if part = "head-tailhalfs" then
    Except.ok ⟨["resid_h_", "resid_t12_", "resid_t22_"], part, DENOMINATOR / 4,
      ["h_", "t12_", "t22_"], "all_energies_headtailhalfs.dat"⟩
  else
    Except.ok ⟨(List.range 7).map (fun i => "resid_C" ++ toString i ++ "_"), part,
      DENOMINATOR / 10, (List.range 7).map (fun i => "C" ++ toString i ++ "_"),
      "all_energies_carbons.dat"⟩

/- ### Sterol/protein species — definitions.lipidmolecules (not under src/) -/

/-- Modelled from the spec: the repository's `definitions.lipidmolecules`
module (not under src/) holds the static list of species that are sterols.
The spec names cholesterol — resname `CHL1`, hardcoded in the neighbor
selections of §4.4 and in `write_energyfile` — as the sterol species and
names no other sterol. -/
def STEROLS : List String := ["CHL1"]

/-- Modelled from the spec: the protein-species list of
`definitions.lipidmolecules` (not under src/); the spec names no protein
species. -/
def PROTEINS : List String := []

/-- The membership test `resname in lipidmolecules.STEROLS+lipidmolecules.PROTEINS`
used throughout energy.py. -/
def is_sterol_protein (resname : String) : Bool := resname ∈ STEROLS ++ PROTEINS

/- ### Energy-group construction — energy.py lines 182-235 -/

/-- Python `l[s:e]` on lists. -/
def pySlice (l : List ℤ) (s e : ℕ) : List ℤ := (l.take e).drop s

/-- energy.py lines 186-191 in `gather_energygroups`: the group labels
contributed by one residue index — a single `resid_<id>` group when its
species is a sterol/protein, one `<part><id>` group per molpart otherwise. -/
def energygroups_of_index (resid_to_lipid : ℤ → String) (molparts : List String)
    (index : ℤ) : List String :=
  if is_sterol_protein (resid_to_lipid index) then ["resid_" ++ toString index]
  else molparts.map (fun part => part ++ toString index)

/-- energy.py lines 182-193, `gather_energygroups`: the energy-group list for
host `res` and the fragment slice `all_neibs_of_res[gb.1:gb.2]`. -/
def gather_energygroups (resid_to_lipid : ℤ → String) (molparts : List String)
    (res : ℤ) (all_neibs_of_res : List ℤ) (gb : ℕ × ℕ) : List String :=
  (res :: pySlice all_neibs_of_res gb.1 gb.2).flatMap
    (energygroups_of_index resid_to_lipid molparts)

/-- energy.py line 192: `energygroup_string = ' '.join(energygroup_list)`. -/
def gather_energygroups_string (resid_to_lipid : ℤ → String) (molparts : List String)
    (res : ℤ) (all_neibs_of_res : List ℤ) (gb : ℕ × ℕ) : String :=
  String.intercalate " " (gather_energygroups resid_to_lipid molparts res all_neibs_of_res gb)

/-- The counter idiom of `get_relev_energies` (energy.py lines 205-211 for the
host, 213-219 for the neighbor): iterating over `molparts` with a counter
that, when `collapse` holds (sterol/protein species), replaces the first part
with the whole-residue prefix `resid_` and skips all later parts. -/
def partsLoop (collapse : Bool) : List String → ℕ → List String
  | [], _ => []
  | p :: rest, counter =>
    if collapse && counter == 0 then "resid_" :: partsLoop collapse rest 1
    else if collapse then partsLoop collapse rest counter
    else p :: partsLoop collapse rest counter

/-- energy.py lines 195-222, `get_relev_energies`: the list of energy-table
entries requested from `gmx energy` for host `res` and the neighbors in the
current fragment slice — `<EnergyType><hostPart><res>-<neibPart><neib>` for
both short-range energy types, with sterol/protein residues collapsed to the
single `resid_` part by the counter idiom. -/
def get_relev_energies_list (resid_to_lipid : ℤ → String) (molparts : List String)
    (res : ℤ) (slice : List ℤ) : List String :=
  ["Coul-SR:", "LJ-SR:"].flatMap fun interaction =>
    (partsLoop (is_sterol_protein (resid_to_lipid res)) molparts 0).flatMap fun parthost =>
      slice.flatMap fun neib =>
        (partsLoop (is_sterol_protein (resid_to_lipid neib)) molparts 0).map fun partneib =>
          interaction ++ parthost ++ toString res ++ "-" ++ partneib ++ toString neib

/-- energy.py line 221: `all_relev_energies = '\n'.join(energyselection+['\n'])`. -/
def get_relev_energies (resid_to_lipid : ℤ → String) (molparts : List String)
    (res : ℤ) (slice : List ℤ) : String :=
  String.intercalate "\n" (get_relev_energies_list resid_to_lipid molparts res slice ++ ["\n"])

/-- energy.py lines 377-391 in `write_energyfile`: the host/neighbor part
labels used by the aggregation loop.  Each molpart is first stripped of its
`resid_` prefix (`parthost = parthost[6:]`); when the species is the literal
`CHL1` the counter idiom replaces the first part with the empty string and
skips the rest. -/
def writePartsLoop (isCHL1 : Bool) : List String → ℕ → List String
  | [], _ => []
  | p :: rest, counter =>
    if isCHL1 && counter == 0 then "" :: writePartsLoop isCHL1 rest 1
    else if isCHL1 then writePartsLoop isCHL1 rest counter
    else p.drop 6 :: writePartsLoop isCHL1 rest counter

/-- energy.py lines 393-400: the rendered part label — `parthost[:-1]`, or
the literal `w` when the stripped part is empty (the whole-residue case). -/
def interLabel (p : String) : String :=
  if p.dropRight 1 = "" then "w" else p.dropRight 1

/- ### File-system model for the idempotent-skip logic — energy.py lines 95-126 -/

/-- Collapse duplicate path separators: POSIX resolves `a//b` and `a/b` to the
same file, and `run_calculation` names the same xvg table once with and once
without a doubled separator (`'/xvgtables/...'` at line 99 versus
`'xvgtables/...'` at line 111 appended to an `energypath` that ends in `/`). -/
def collapseSlashes : List Char → List Char
  | [] => []
  | [c] => [c]
  | c :: d :: rest =>
    if c = '/' ∧ d = '/' then collapseSlashes (d :: rest)
    else c :: collapseSlashes (d :: rest)

/-- Normalized form of a path string. -/
def normPath (p : String) : String := ⟨collapseSlashes p.data⟩

/-- A file system: an association list from normalized path to content
(later writes shadow earlier ones). -/
structure FS where
  files : List (String × String)

/-- `os.path.isfile`. -/
def FS.isfile (fs : FS) (p : String) : Bool := (fs.files.lookup (normPath p)).isSome

/-- Writing (creating or overwriting) a file. -/
def FS.write (fs : FS) (p c : String) : FS := ⟨(normPath p, c) :: fs.files⟩

/-- Reading a file's content, if present. -/
def FS.readf (fs : FS) (p : String) : Option String := fs.files.lookup (normPath p)

/-- energy.py line 108: the mdp output path of a fragment. -/
def mdpout_path (energypath res frag part : String) : String :=
  energypath ++ "mdpfiles/energy_mdp_recalc_resid" ++ res ++ "_" ++ frag ++ part ++ ".mdp"

/-- energy.py line 109: the tpr output path of a fragment. -/
def tprout_path (energypath res frag part : String) : String :=
  energypath ++ "tprfiles/mdrerun_resid" ++ res ++ "_" ++ frag ++ part ++ ".tpr"

/-- energy.py line 110: the edr (energy-trace) output path of a fragment. -/
def energyf_output_path (energypath res frag part : String) : String :=
  energypath ++ "edrfiles/energyfile_resid" ++ res ++ "_" ++ frag ++ part ++ ".edr"

/-- energy.py lines 98-101: the xvg path used by the skip test (note the
leading separator before `xvgtables`). -/
def g_energy_output_path (energypath res frag part : String) : String :=
  energypath ++ "/xvgtables/energies_residue" ++ res ++ "_" ++ frag ++ part ++ ".xvg"

/-- energy.py line 111: the xvg path passed to `write_XVG` (no leading
separator; on disk the same file as `g_energy_output_path` since
`energypath` ends in `/`). -/
def xvg_out_path (energypath res frag part : String) : String :=
  energypath ++ "xvgtables/energies_residue" ++ res ++ "_" ++ frag ++ part ++ ".xvg"

/-- energy.py lines 241-274 in `create_MDP`: the fixed run-control template
(each line of the triple-quoted literal stripped of surrounding whitespace;
the first and last entries are the empty fringe lines of the literal). -/
def raw_mdp : List String :=
  ["", "integrator              = md", "dt                      = 0.002",
   "nsteps                  =", "nstlog                  = 100000",
   "nstxout                 = 0", "nstvout                 = 0",
   "nstfout                 = 0", "nstcalcenergy           = 1000",
   "nstenergy               = 100", "cutoff-scheme           = Verlet",
   "nstlist                 = 20", "rlist                   = 1.2",
   "coulombtype             = pme", "rcoulomb                = 1.2",
   "vdwtype                 = Cut-off", "vdw-modifier            = Force-switch",
   "rvdw_switch             = 1.0", "rvdw                    = 1.2",
   "tcoupl                  = Nose-Hoover", "tau_t                   = 1.0",
   "tc-grps                 = System", "pcoupl                  = Parrinello-Rahman",
   "pcoupltype              = semiisotropic", "tau_p                   = 5.0",
   "compressibility         = 4.5e-5  4.5e-5", "ref_p                   = 1.0     1.0",
   "constraints             = h-bonds", "constraint_algorithm    = LINCS",
   "continuation            = yes", "nstcomm                 = 100",
   "comm_mode               = linear", "refcoord_scaling        = com", ""]

/-- energy.py lines 275-281: the template plus the run-specific `ref_t` line
and the `energygrps` line, newline-joined with a trailing newline. -/
def create_MDP_content (temperature energygroups : String) : String :=
  String.intercalate "\n"
    (raw_mdp ++ ["ref_t = " ++ temperature,
      "energygrps\t\t\t=" ++ energygroups ++ "\n"]) ++ "\n"

/-- The contents the external engine would produce in one fragment step
(opaque to this model). -/
structure EngineOut where
  grompp_tpr : String
  grompp_mdp : String
  mdrun_edr : String
  genergy_xvg : String

/-- energy.py lines 95-125, the per-fragment body of `run_calculation`:
`create_MDP` writes the mdp file; `create_TPR` invokes grompp (which writes
the tpr and, via `-po`, rewrites the mdp); the `mdrun -rerun` step runs only
if the edr file is absent or overwrite is set (lines 118-121); the
`gmx energy` extraction step runs only if the xvg table (checked under the
`g_energy_output` spelling) is absent or overwrite is set (lines 122-125).
Returns the final file system and the numbers of grompp / mdrun / gmx-energy
invocations. -/
def run_calculation_fragment (overwrite : Bool) (eng : EngineOut)
    (temperature energygroups : String) (energypath res frag part : String)
    (fs : FS) : FS × ℕ × ℕ × ℕ :=
  let mdp := mdpout_path energypath res frag part
  let tpr := tprout_path energypath res frag part
  let edr := energyf_output_path energypath res frag part
  let fs1 := fs.write mdp (create_MDP_content temperature energygroups)
  let fs2 := (fs1.write tpr eng.grompp_tpr).write mdp eng.grompp_mdp
  let step3 :=
    if fs2.isfile edr && !overwrite then (fs2, 0)
    else (fs2.write edr eng.mdrun_edr, 1)
  let step4 :=
    if step3.1.isfile (g_energy_output_path energypath res frag part) && !overwrite then
      (step3.1, 0)
    else (step3.1.write (xvg_out_path energypath res frag part) eng.genergy_xvg, 1)
  (step4.1, 1, step3.2, step4.2)

/- ### xvg-header parsing and the end-of-residue cross-check —
energy.py lines 345-431 in `write_energyfile` -/

/-- The pattern `"resid_"` as characters. -/
def residPat : List Char := ['r', 'e', 's', 'i', 'd', '_']

/-- The suffix just after the first occurrence of `pat` (`none` when `pat`
does not occur). -/
def dropThroughPat (pat : List Char) : List Char → Option (List Char)
  | [] => none
  | c :: rest =>
    if pat.isPrefixOf (c :: rest) then some ((c :: rest).drop pat.length)
    else dropThroughPat pat rest

/-- The prefix up to (excluding) the first occurrence of `pat` (the whole
list when `pat` does not occur). -/
def takeUntilPat (pat : List Char) : List Char → List Char
  | [] => []
  | c :: rest => if pat.isPrefixOf (c :: rest) then [] else c :: takeUntilPat pat rest

/-- Python `s.split(pat)[2]` when at least three chunks exist: the text
between the second and the third occurrence of `pat` (or the end). -/
def splitChunk2 (pat : List Char) (l : List Char) : Option (List Char) :=
  (dropThroughPat pat l).bind fun l1 => (dropThroughPat pat l1).map (takeUntilPat pat)

/-- energy.py line 358: `neib = energyline_cols[3].split("resid_")[2][:-1]` —
the neighbor label parsed from a legend column (`[]` stands for the
IndexError case of fewer than three chunks, never hit on generated labels). -/
def parse_neib (label : List Char) : List Char :=
  ((splitChunk2 residPat label).getD []).dropLast

/-- energy.py line 360: `energytype = energyline_cols[3].split("-")[0][1:]` —
the energy type parsed from a legend column (the leading character dropped is
the opening quote). -/
def parse_etype (label : List Char) : List Char :=
  (takeUntilPat ['-'] label).drop 1

/-- One legend column of an xvg table: `gmx energy` echoes each requested
entry as the quoted token `"<entry>"`, which is `energyline_cols[3]` of an
`@ s<N> legend "..."` line. -/
def legendCol (raw : String) : String := "\"" ++ raw ++ "\""

/-- energy.py lines 351-366: scanning the header lines of one fragment table;
for each legend line whose parsed energy type is `LJ` (line 362) the parsed
neighbor label is appended to `processed_neibs` (line 363). -/
def processed_of_headers (headers : List String) : List (List Char) :=
  headers.filterMap fun h =>
    if parse_etype h.data = ['L', 'J'] then some (parse_neib h.data) else none

/-- A Python value that is either an int or a str; equality is Python `==`,
under which an int never equals a str.  The expected neighbor list holds ints
in mode complete but strings after the multi-part expansion, while processed
neighbor labels are always strings. -/
inductive PyVal where
  | i : ℤ → PyVal
  | s : List Char → PyVal
deriving DecidableEq

/-- Python `list.remove`: delete the first occurrence; `none` models
`ValueError: list.remove(x): x not in list`. -/
def pyRemove : List PyVal → PyVal → Option (List PyVal)
  | [], _ => none
  | v :: rest, x => if v = x then some rest else (pyRemove rest x).map (v :: ·)

/-- energy.py lines 426-428:
`for pneib in processed_neibs: all_neibs_of_res.remove(pneib)`. -/
def pyRemoveAll : List PyVal → List PyVal → Option (List PyVal)
  | l, [] => some l
  | l, x :: xs => (pyRemove l x).bind fun l2 => pyRemoveAll l2 xs

/-- The character list of Python `str(n)` for a residue id. -/
def numChars (n : ℤ) : List Char := (toString n).data

/-- energy.py lines 421-423: in multi-part modes the expected list is expanded
— one entry `part.replace("resid_", "") + str(entry)` per (neighbor, molpart)
pair (every molpart starts with the 6-character prefix `resid_` and contains
no further occurrence, so the replace is a prefix drop), then every entry is
duplicated `len(molparts)` times.  In mode complete the list keeps the raw
integer ids. -/
def expected_neighbor_entries (molparts : List String) (all_neibs : List ℤ) : List PyVal :=
  if molparts.length > 1 then
    (all_neibs.flatMap fun entry =>
        molparts.map fun part => PyVal.s (part.data.drop 6 ++ numChars entry)).flatMap
      fun e => List.replicate molparts.length e
  else all_neibs.map PyVal.i

/-- The two failure modes of the end-of-residue cross-check. -/
inductive CheckError where
  | removeNotInList
  | notAllNeighboursFound
deriving DecidableEq

/-- energy.py lines 421-431: the end-of-residue cross-check of
`write_energyfile` — remove each processed neighbor label from the expected
list (a failing removal is Python's `ValueError: list.remove(x): x not in
list`), then raise `ValueError('Not all neighbours found in xvgfile')` if
anything is left over. -/
def residue_check (molparts : List String) (all_neibs : List ℤ)
    (processed : List (List Char)) : Except CheckError Unit :=
  match pyRemoveAll (expected_neighbor_entries molparts all_neibs) (processed.map PyVal.s) with
  | none => Except.error CheckError.removeNotInList
  | some leftover =>
    if leftover.isEmpty then Except.ok () else Except.error CheckError.notAllNeighboursFound

/-- The legend columns of the fragment-`frag` extraction table when that table
is present and complete, i.e. lists exactly the entries requested by
`get_relev_energies` for the fragment slice (energy.py lines 102-104 and
112-113). -/
def fragment_headers (resid_to_lipid : ℤ → String) (molparts : List String)
    (denominator : ℕ) (res : ℤ) (all_neibs : List ℤ) (frag : ℕ) : List String :=
  (get_relev_energies_list resid_to_lipid molparts res
      (pySlice all_neibs (frag * denominator) ((frag + 1) * denominator))).map legendCol

/-- All fragments' legend columns for a residue whose extraction tables are
all present and complete. -/
def complete_headers (resid_to_lipid : ℤ → String) (molparts : List String)
    (denominator : ℕ) (res : ℤ) (all_neibs : List ℤ) : List (List String) :=
  (List.range (number_of_groupfragments all_neibs.length denominator)).map
    (fragment_headers resid_to_lipid molparts denominator res all_neibs)

/-- energy.py lines 345-431 restricted to the neighbor bookkeeping of
`write_energyfile`: scan every fragment table's legend lines in order,
accumulating `processed_neibs`, then run the end-of-residue cross-check.
(The per-time energy rows the function also prints read the same headers but
never touch `processed_neibs` or `all_neibs_of_res`.) -/
def write_energyfile_residue_check (molparts : List String) (all_neibs : List ℤ)
    (headersPerFragment : List (List String)) : Except CheckError Unit :=
  residue_check molparts all_neibs (headersPerFragment.flatMap processed_of_headers)

/-! ## Helper lemmas -/

/-- Dividing by a positive denominator (the vector norm) keeps the sign test:
the code's `cos <= 0` with `cos = dot/‖v‖`.  Justifies dropping the
(irrational) norm division in `molecule_leaflet_orientation`. -/
lemma div_nonpos_iff_of_pos_denom (d n : ℝ) (hn : 0 < n) : d / n ≤ 0 ↔ d ≤ 0 := by
  constructor
  · intro h
    by_contra hd
    push_neg at hd
    have hpos : 0 < d / n := div_pos hd hn
    linarith
  · intro h
    exact div_nonpos_of_nonpos_of_nonneg h hn.le

/-- The fragment-count formula of the code equals ceiling division for any
positive denominator (in particular `ceil(0/d) = 0`: a residue with zero
neighbors gets zero fragments). -/
lemma number_of_groupfragments_eq_ceilDiv (N d : ℕ) (hd : 0 < d) :
    number_of_groupfragments N d = ceilDiv N d := by
  unfold number_of_groupfragments ceilDiv
  obtain ⟨q, hq⟩ : ∃ q, N / d = q := ⟨_, rfl⟩
  obtain ⟨r, hr⟩ : ∃ r, N % d = r := ⟨_, rfl⟩
  have hm : d * q + r = N := by rw [← hq, ← hr]; exact Nat.div_add_mod N d
  have hrd : r < d := by rw [← hr]; exact Nat.mod_lt _ hd
  rw [hq, hr]
  split
  case isTrue h =>
    have h0 : r = 0 := by simpa using h
    have h1 : N + d - 1 = (d - 1) + d * q := by omega
    have hz : (d - 1) / d = 0 := Nat.div_eq_of_lt (by omega)
    rw [h1, Nat.add_mul_div_left _ _ hd, hz, Nat.zero_add]
  case isFalse h =>
    have h0 : r ≠ 0 := by simpa using h
    have hx : d * (q + 1) = d * q + d := by ring
    have h1 : N + d - 1 = (r - 1) + d * (q + 1) := by omega
    have hz : (r - 1) / d = 0 := Nat.div_eq_of_lt (by omega)
    rw [h1, Nat.add_mul_div_left _ _ hd, hz, Nat.zero_add]

/-- A nonempty neighbor list needs at least one fragment. -/
lemma number_of_groupfragments_pos (len d : ℕ) (hd : 0 < d) (hl : 0 < len) :
    0 < number_of_groupfragments len d := by
  rw [number_of_groupfragments_eq_ceilDiv len d hd]
  unfold ceilDiv
  exact Nat.div_pos (by omega) hd

/-- Inversion of `energy_init`: a successful construction is one of the four
modes with the corresponding molparts and denominator. -/
lemma energy_init_cases (part nf : String) (cfg : EnergyConfig)
    (h : energy_init part nf = Except.ok cfg) :
    (part = "complete" ∧ cfg.molparts = ["resid_"] ∧ cfg.denominator = 40) ∨
    (part = "head-tail" ∧ cfg.molparts = ["resid_h_", "resid_t_"] ∧ cfg.denominator = 20) ∨
    (part = "head-tailhalfs" ∧ cfg.molparts = ["resid_h_", "resid_t12_", "resid_t22_"] ∧
      cfg.denominator = 10) ∨
    (part = "carbons" ∧
      cfg.molparts = ["resid_C0_", "resid_C1_", "resid_C2_", "resid_C3_", "resid_C4_",
        "resid_C5_", "resid_C6_"] ∧ cfg.denominator = 4) := by
  unfold energy_init at h
  split at h
  · exact absurd h (by simp)
  case isFalse hk =>
    rw [not_not] at hk
    split at h
    case isTrue h1 =>
      obtain rfl := Except.ok.inj h
      exact Or.inl ⟨h1, rfl, rfl⟩
    case isFalse h1 =>
      split at h
      case isTrue h2 =>
        obtain rfl := Except.ok.inj h
        exact Or.inr (Or.inl ⟨h2, rfl, rfl⟩)
      case isFalse h2 =>
        split at h
        case isTrue h3 =>
          obtain rfl := Except.ok.inj h
          exact Or.inr (Or.inr (Or.inl ⟨h3, rfl, rfl⟩))
        case isFalse h3 =>
          have h4 : part = "carbons" := by
            simp only [knownparts, List.mem_cons, List.not_mem_nil, or_false] at hk
            tauto
          obtain rfl := Except.ok.inj h
          exact Or.inr (Or.inr (Or.inr ⟨h4, by rfl, rfl⟩))

/-- For every successfully constructed mode the denominator is positive. -/
lemma energy_init_denominator_pos (part nf : String) (cfg : EnergyConfig)
    (h : energy_init part nf = Except.ok cfg) : 0 < cfg.denominator := by
  rcases energy_init_cases part nf cfg h with ⟨_, _, hd⟩ | ⟨_, _, hd⟩ | ⟨_, _, hd⟩ | ⟨_, _, hd⟩ <;>
    rw [hd] <;> decide

/-- For every successfully constructed mode the molparts list is nonempty. -/
lemma energy_init_molparts_ne_nil (part nf : String) (cfg : EnergyConfig)
    (h : energy_init part nf = Except.ok cfg) : cfg.molparts ≠ [] := by
  rcases energy_init_cases part nf cfg h with ⟨_, hm, _⟩ | ⟨_, hm, _⟩ | ⟨_, hm, _⟩ | ⟨_, hm, _⟩ <;>
    rw [hm] <;> decide

/-- Under the spec-modelled species lists the sterol/protein category is
exactly the single species `CHL1` — so the literal `residtype == 'CHL1'`
test of `write_energyfile` coincides with the category test. -/
lemma is_sterol_protein_iff (resname : String) :
    is_sterol_protein resname = true ↔ resname = "CHL1" := by
  simp [is_sterol_protein, STEROLS, PROTEINS]

lemma partsLoop_true_one (l : List String) : partsLoop true l 1 = [] := by
  induction l with
  | nil => rfl
  | cons p rest ih => simp [partsLoop, ih]

/-- Collapsing: for a sterol/protein species the counter loop yields exactly
the single whole-residue prefix. -/
lemma partsLoop_true_zero (l : List String) (h : l ≠ []) :
    partsLoop true l 0 = ["resid_"] := by
  cases l with
  | nil => exact absurd rfl h
  | cons p rest => simp [partsLoop, partsLoop_true_one]

/-- No collapsing: for an ordinary lipid the counter loop yields all molparts. -/
lemma partsLoop_false (l : List String) (c : ℕ) : partsLoop false l c = l := by
  induction l generalizing c with
  | nil => rfl
  | cons p rest ih => simp [partsLoop, ih]

lemma writePartsLoop_true_one (l : List String) : writePartsLoop true l 1 = [] := by
  induction l with
  | nil => rfl
  | cons p rest ih => simp [writePartsLoop, ih]

/-- Collapsing in `write_energyfile`: a `CHL1` residue contributes the single
empty part label. -/
lemma writePartsLoop_true_zero (l : List String) (h : l ≠ []) :
    writePartsLoop true l 0 = [""] := by
  cases l with
  | nil => exact absurd rfl h
  | cons p rest => simp [writePartsLoop, writePartsLoop_true_one]

/-- Removing an element that is not in the list fails (Python's ValueError). -/
lemma pyRemove_eq_none_of_not_mem (l : List PyVal) (x : PyVal) (h : x ∉ l) :
    pyRemove l x = none := by
  induction l with
  | nil => rfl
  | cons v rest ih =>
    have hvx : ¬ v = x := fun he => h (he ▸ List.mem_cons_self v rest)
    have hrest : x ∉ rest := fun hm => h (List.mem_cons_of_mem v hm)
    simp [pyRemove, hvx, ih hrest]

/-- A successful removal yields a sublist (as membership). -/
lemma pyRemove_some_subset (l l2 : List PyVal) (x : PyVal)
    (h : pyRemove l x = some l2) : ∀ y ∈ l2, y ∈ l := by
  induction l generalizing l2 with
  | nil => simp [pyRemove] at h
  | cons v rest ih =>
    by_cases hvx : v = x
    · simp [pyRemove, hvx] at h
      intro y hy
      exact List.mem_cons_of_mem v (h ▸ hy)
    · simp only [pyRemove, if_neg hvx] at h
      cases hrec : pyRemove rest x with
      | none => rw [hrec] at h; simp at h
      | some l3 =>
        rw [hrec] at h
        simp only [Option.map_some', Option.some.injEq] at h
        intro y hy
        rw [← h] at hy
        rcases List.mem_cons.mp hy with hyv | hy3
        · exact hyv ▸ List.mem_cons_self v rest
        · exact List.mem_cons_of_mem v (ih l3 hrec y hy3)

/-- If some processed entry was never in the expected list, the sequential
removal loop fails with the remove-ValueError (whether at that entry or at an
earlier one). -/
lemma pyRemoveAll_none_of_exists (proc : List PyVal) (l : List PyVal) (x : PyVal)
    (hx : x ∈ proc) (hnl : x ∉ l) : pyRemoveAll l proc = none := by
  induction proc generalizing l with
  | nil => cases hx
  | cons p ps ih =>
    rcases List.mem_cons.mp hx with rfl | hxs
    · cases hrem : pyRemove l x with
      | none => simp [pyRemoveAll, hrem]
      | some l2 => exact absurd hrem (by rw [pyRemove_eq_none_of_not_mem l x hnl]; simp)
    · cases hrem : pyRemove l p with
      | none => simp [pyRemoveAll, hrem]
      | some l2 =>
        have hx2 : x ∉ l2 := fun hm => hnl (pyRemove_some_subset l l2 p hrem x hm)
        simp [pyRemoveAll, hrem, ih l2 hxs hx2]

/-- The cross-check ends in the remove-ValueError as soon as one processed
label is absent from the expected list. -/
lemma residue_check_remove_error (molparts : List String) (all_neibs : List ℤ)
    (processed : List (List Char)) (x : List Char) (hx : x ∈ processed)
    (hnot : PyVal.s x ∉ expected_neighbor_entries molparts all_neibs) :
    residue_check molparts all_neibs processed = Except.error CheckError.removeNotInList := by
  unfold residue_check
  rw [pyRemoveAll_none_of_exists (processed.map PyVal.s)
    (expected_neighbor_entries molparts all_neibs) (PyVal.s x)
    (List.mem_map_of_mem PyVal.s hx) hnot]

/-- A pattern starting with `p` is not a prefix of a list starting with a
different character. -/
lemma isPrefixOf_cons_ne (p : Char) (ps : List Char) (c : Char) (l : List Char)
    (h : c ≠ p) : (p :: ps).isPrefixOf (c :: l) = false := by
  have hb : (p == c) = false := beq_eq_false_iff_ne.mpr (Ne.symm h)
  simp [List.isPrefixOf, hb]

/-- Scanning for the pattern skips characters that cannot start it. -/
lemma dropThroughPat_append_ne (p : Char) (ps : List Char) (l rest : List Char)
    (h : ∀ c ∈ l, c ≠ p) :
    dropThroughPat (p :: ps) (l ++ rest) = dropThroughPat (p :: ps) rest := by
  induction l with
  | nil => rfl
  | cons c cs ih =>
    have hc : c ≠ p := h c (List.mem_cons_self c cs)
    have hcs : ∀ b ∈ cs, b ≠ p := fun b hb => h b (List.mem_cons_of_mem c hb)
    have hstep : dropThroughPat (p :: ps) (c :: (cs ++ rest))
        = dropThroughPat (p :: ps) (cs ++ rest) := by
      rw [dropThroughPat, isPrefixOf_cons_ne p ps c (cs ++ rest) hc]
      simp
    rw [List.cons_append, hstep, ih hcs]

/-- The pattern `resid_` is consumed when it sits at the head. -/
lemma dropThroughPat_residPat_self (rest : List Char) :
    dropThroughPat residPat (residPat ++ rest) = some rest := by
  simp [residPat, dropThroughPat, List.isPrefixOf]

/-- `dropThroughPat residPat` skips any run of characters other than `r`. -/
lemma dropThroughPat_residPat_append (l rest : List Char) (h : ∀ c ∈ l, c ≠ 'r') :
    dropThroughPat residPat (l ++ rest) = dropThroughPat residPat rest :=
  dropThroughPat_append_ne 'r' ['e', 's', 'i', 'd', '_'] l rest h

/-- `takeUntilPat` keeps a whole list free of the pattern's first character. -/
lemma takeUntilPat_ne_all (p : Char) (ps : List Char) (l : List Char)
    (h : ∀ c ∈ l, c ≠ p) : takeUntilPat (p :: ps) l = l := by
  induction l with
  | nil => rfl
  | cons c cs ih =>
    have hc : c ≠ p := h c (List.mem_cons_self c cs)
    have hcs : ∀ b ∈ cs, b ≠ p := fun b hb => h b (List.mem_cons_of_mem c hb)
    unfold takeUntilPat
    rw [isPrefixOf_cons_ne p ps c cs hc]
    simpa using ih hcs

/-- The neighbor label parsed from a well-formed legend column: the text
after the second `resid_` occurrence, with the closing quote stripped.
`pre` covers the opening quote and the energy type, `seg1` the host part
tail, the host id and the separator, `seg2` the neighbor part tail and the
neighbor id; none of them may contain the letter `r` (true of all generated
labels — checked per instance). -/
lemma parse_neib_eq (pre seg1 seg2 : List Char)
    (hpre : ∀ c ∈ pre, c ≠ 'r') (h1 : ∀ c ∈ seg1, c ≠ 'r') (h2 : ∀ c ∈ seg2, c ≠ 'r') :
    parse_neib (pre ++ (residPat ++ (seg1 ++ (residPat ++ (seg2 ++ ['"']))))) = seg2 := by
  have hq : ∀ c ∈ seg2 ++ ['"'], c ≠ 'r' := by
    intro c hc
    rcases List.mem_append.mp hc with hc2 | hcq
    · exact h2 c hc2
    · simp only [List.mem_singleton] at hcq
      rw [hcq]; decide
  have e1 : dropThroughPat residPat
      (pre ++ (residPat ++ (seg1 ++ (residPat ++ (seg2 ++ ['"'])))))
      = some (seg1 ++ (residPat ++ (seg2 ++ ['"']))) := by
    rw [dropThroughPat_residPat_append pre _ hpre, dropThroughPat_residPat_self]
  have e2 : dropThroughPat residPat (seg1 ++ (residPat ++ (seg2 ++ ['"'])))
      = some (seg2 ++ ['"']) := by
    rw [dropThroughPat_residPat_append seg1 _ h1, dropThroughPat_residPat_self]
  have e3 : takeUntilPat residPat (seg2 ++ ['"']) = seg2 ++ ['"'] :=
    takeUntilPat_ne_all 'r' ['e', 's', 'i', 'd', '_'] _ hq
  unfold parse_neib splitChunk2
  rw [e1, Option.some_bind, e2, Option.map_some', e3, Option.getD_some,
    List.dropLast_concat]

/-- The energy type parsed from a legend column that requests an `LJ-SR` term
is the string `LJ` (the scan stops at the first dash, which sits inside the
concrete prefix `"LJ-SR:` whatever follows). -/
lemma parse_etype_LJ_head (t : List Char) :
    parse_etype ('"' :: 'L' :: 'J' :: '-' :: t) = ['L', 'J'] := by
  simp [parse_etype, takeUntilPat, List.isPrefixOf]

/-- Every residue id sits in the fragment slice of some fragment index below
the fragment count. -/
lemma mem_pySlice_of_mem (l : List ℤ) (n : ℤ) (den : ℕ) (hden : 0 < den) (h : n ∈ l) :
    ∃ f, f < number_of_groupfragments l.length den ∧
      n ∈ pySlice l (f * den) ((f + 1) * den) := by
  obtain ⟨i, hi, hget⟩ := List.mem_iff_getElem.mp h
  refine ⟨i / den, ?_, ?_⟩
  · rw [number_of_groupfragments_eq_ceilDiv _ _ hden]
    unfold ceilDiv
    have h1 : i / den * den ≤ i := Nat.div_mul_le_self i den
    have h2 : (i / den + 1) * den = i / den * den + den := by ring
    have h3 : (i / den + 1) * den ≤ l.length + den - 1 := by omega
    have h4 : i / den + 1 ≤ (l.length + den - 1) / den :=
      (Nat.le_div_iff_mul_le hden).mpr h3
    omega
  · have hs : i / den * den ≤ i := Nat.div_mul_le_self i den
    have hmod : den * (i / den) + i % den = i := Nat.div_add_mod i den
    have hmlt : i % den < den := Nat.mod_lt _ hden
    have hx : (i / den + 1) * den = den * (i / den) + den := by ring
    have he : i < (i / den + 1) * den := by omega
    unfold pySlice
    refine List.mem_iff_getElem?.mpr ⟨i - i / den * den, ?_⟩
    rw [List.getElem?_drop, List.getElem?_take]
    have hidx : i / den * den + (i - i / den * den) = i := by omega
    rw [hidx, if_pos (by omega), List.getElem?_eq_getElem hi, hget]

/-- The characters of a rendered legend column. -/
lemma legendCol_data (raw : String) : (legendCol raw).data = '"' :: (raw.data ++ ['"']) := by
  have h1 : ("\"" : String).data = ['"'] := rfl
  simp [legendCol, String.data_append, h1]

/-- Every legend column generated for an `LJ-SR` request parses to energy
type `LJ`: the scan for the first dash ends inside the concrete prefix. -/
lemma parse_etype_LJ_of_parts (a b c d : String) :
    parse_etype (legendCol ("LJ-SR:" ++ a ++ b ++ "-" ++ c ++ d)).data = ['L', 'J'] := by
  rw [legendCol_data]
  simp only [String.data_append, List.cons_append, List.nil_append, List.append_assoc]
  exact parse_etype_LJ_head _

/-- The neighbor label parsed from the legend column of an `LJ-SR` request
against a whole-residue (`resid_`) neighbor part is the bare neighbor id:
the second `resid_` occurrence is the neighbor part itself and nothing of
the neighbor id or the closing quote contains an `r`. -/
lemma parse_neib_of_label (ptail : List Char) (res nstar : ℤ) (parthost : String)
    (hph : parthost.data = residPat ++ ptail)
    (hpt : ∀ c ∈ ptail, c ≠ 'r')
    (hres : ∀ c ∈ numChars res, c ≠ 'r')
    (hn : ∀ c ∈ numChars nstar, c ≠ 'r') :
    parse_neib (legendCol
        ("LJ-SR:" ++ parthost ++ toString res ++ "-" ++ "resid_" ++ toString nstar)).data
      = numChars nstar := by
  have hLJ : ("LJ-SR:" : String).data = ['L', 'J', '-', 'S', 'R', ':'] := rfl
  have hdash : ("-" : String).data = ['-'] := rfl
  have hresid : ("resid_" : String).data = residPat := rfl
  have hpre : ∀ c ∈ ('"' :: ['L', 'J', '-', 'S', 'R', ':']), c ≠ 'r' := by decide
  have hs1 : ∀ c ∈ ptail ++ (numChars res ++ ['-']), c ≠ 'r' := by
    intro c hc
    rcases List.mem_append.mp hc with hc1 | hc2
    · exact hpt c hc1
    rcases List.mem_append.mp hc2 with hc3 | hc4
    · exact hres c hc3
    · simp only [List.mem_singleton] at hc4
      rw [hc4]; decide
  have key := parse_neib_eq ('"' :: ['L', 'J', '-', 'S', 'R', ':'])
    (ptail ++ (numChars res ++ ['-'])) (numChars nstar) hpre hs1 hn
  have harg : (legendCol
        ("LJ-SR:" ++ parthost ++ toString res ++ "-" ++ "resid_" ++ toString nstar)).data
      = ('"' :: ['L', 'J', '-', 'S', 'R', ':']) ++
        (residPat ++ ((ptail ++ (numChars res ++ ['-'])) ++
          (residPat ++ (numChars nstar ++ ['"'])))) := by
    rw [legendCol_data]
    simp only [String.data_append, hLJ, hdash, hresid, hph, numChars]
    simp [residPat, List.append_assoc]
  rw [harg, key]

/-- A label built from a choice of energy type, host part, neighbor and
neighbor part is among the entries requested by `get_relev_energies`. -/
lemma mem_get_relev_energies_list (rtl : ℤ → String) (molparts : List String)
    (res : ℤ) (slice : List ℤ) (inter parthost partneib : String) (neib : ℤ)
    (hi : inter ∈ ["Coul-SR:", "LJ-SR:"])
    (hh : parthost ∈ partsLoop (is_sterol_protein (rtl res)) molparts 0)
    (hn : neib ∈ slice)
    (hp : partneib ∈ partsLoop (is_sterol_protein (rtl neib)) molparts 0) :
    (inter ++ parthost ++ toString res ++ "-" ++ partneib ++ toString neib) ∈
      get_relev_energies_list rtl molparts res slice := by
  unfold get_relev_energies_list
  refine List.mem_flatMap.mpr ⟨inter, hi, ?_⟩
  refine List.mem_flatMap.mpr ⟨parthost, hh, ?_⟩
  refine List.mem_flatMap.mpr ⟨neib, hn, ?_⟩
  exact List.mem_map.mpr ⟨partneib, hp, rfl⟩

/-- A header whose parsed energy type is `LJ` contributes its parsed neighbor
label to `processed_neibs`. -/
lemma mem_processed_of_headers (headers : List String) (h : String)
    (hm : h ∈ headers) (hLJ : parse_etype h.data = ['L', 'J']) :
    parse_neib h.data ∈ processed_of_headers headers := by
  unfold processed_of_headers
  refine List.mem_filterMap.mpr ⟨h, hm, ?_⟩
  rw [if_pos hLJ]

/-- Both branches of the counter loop over the single molpart of mode
complete yield the whole-residue prefix. -/
lemma partsLoop_single (b : Bool) : partsLoop b ["resid_"] 0 = ["resid_"] := by
  cases b <;> rfl

/-- The parsed neighbor label of any `LJ-SR` legend entry generated for a
neighbor of the residue lands in the accumulated `processed_neibs` when all
fragment tables are present and complete. -/
lemma parsed_label_mem_processed (rtl : ℤ → String) (molparts : List String)
    (den : ℕ) (hden : 0 < den) (res : ℤ) (all_neibs : List ℤ) (neib : ℤ)
    (hmem : neib ∈ all_neibs) (parthost partneib : String)
    (hph : parthost ∈ partsLoop (is_sterol_protein (rtl res)) molparts 0)
    (hpn : partneib ∈ partsLoop (is_sterol_protein (rtl neib)) molparts 0) :
    parse_neib (legendCol
        ("LJ-SR:" ++ parthost ++ toString res ++ "-" ++ partneib ++ toString neib)).data
      ∈ (complete_headers rtl molparts den res all_neibs).flatMap processed_of_headers := by
  obtain ⟨f, hf, hslice⟩ := mem_pySlice_of_mem all_neibs neib den hden hmem
  have hlabel := mem_get_relev_energies_list rtl molparts res
    (pySlice all_neibs (f * den) ((f + 1) * den)) "LJ-SR:" parthost partneib neib
    (by simp) hph hslice hpn
  have hhdr : legendCol ("LJ-SR:" ++ parthost ++ toString res ++ "-" ++ partneib ++ toString neib)
      ∈ fragment_headers rtl molparts den res all_neibs f :=
    List.mem_map_of_mem legendCol hlabel
  have hfrag : fragment_headers rtl molparts den res all_neibs f
      ∈ complete_headers rtl molparts den res all_neibs :=
    List.mem_map_of_mem _ (List.mem_range.mpr hf)
  refine List.mem_flatMap.mpr ⟨fragment_headers rtl molparts den res all_neibs f, hfrag, ?_⟩
  exact mem_processed_of_headers _ _ hhdr (parse_etype_LJ_of_parts _ _ _ _)

/-- Mode complete: with at least one neighbor and every fragment table
present and complete, the cross-check fails at the removal step — the
processed labels are strings while the expected list holds ints. -/
lemma residue_check_complete_fails (rtl : ℤ → String) (res : ℤ)
    (all_neibs : List ℤ) (hne : all_neibs ≠ []) :
    write_energyfile_residue_check ["resid_"] all_neibs
        (complete_headers rtl ["resid_"] 40 res all_neibs)
      = Except.error CheckError.removeNotInList := by
  obtain ⟨n0, tl, rfl⟩ : ∃ n0 tl, all_neibs = n0 :: tl := by
    cases all_neibs with
    | nil => exact absurd rfl hne
    | cons a l => exact ⟨a, l, rfl⟩
  unfold write_energyfile_residue_check
  apply residue_check_remove_error _ _ _
    (parse_neib (legendCol
      ("LJ-SR:" ++ "resid_" ++ toString res ++ "-" ++ "resid_" ++ toString n0)).data)
  · exact parsed_label_mem_processed rtl ["resid_"] 40 (by decide) res (n0 :: tl) n0
      (List.mem_cons_self n0 tl) "resid_" "resid_"
      (by rw [partsLoop_single]; exact List.mem_singleton.mpr rfl)
      (by rw [partsLoop_single]; exact List.mem_singleton.mpr rfl)
  · intro hmem
    simp [expected_neighbor_entries] at hmem

/-- In a multi-part mode every expected entry starts with a part prefix
(`h`, `t` or `C`), so a bare residue-id string is never among them. -/
lemma not_mem_expected_of_head (molparts : List String) (all_neibs : List ℤ)
    (x : List Char) (hlen : 1 < molparts.length)
    (hparts : ∀ p ∈ molparts, (p.data.drop 6).head? ∈ [some 'h', some 't', some 'C'])
    (hx : x.head? ∉ [some 'h', some 't', some 'C']) :
    PyVal.s x ∉ expected_neighbor_entries molparts all_neibs := by
  intro hmem
  unfold expected_neighbor_entries at hmem
  rw [if_pos hlen] at hmem
  rcases List.mem_flatMap.mp hmem with ⟨e, he, hrep⟩
  have hxe : PyVal.s x = e := List.eq_of_mem_replicate hrep
  rcases List.mem_flatMap.mp he with ⟨entry, _, hmp⟩
  rcases List.mem_map.mp hmp with ⟨p, hp, hpe⟩
  have hxx : x = p.data.drop 6 ++ numChars entry := by
    rw [← hpe] at hxe
    exact PyVal.s.inj hxe
  have hph := hparts p hp
  cases hd : p.data.drop 6 with
  | nil => rw [hd] at hph; simp at hph
  | cons c rest =>
    rw [hd] at hph hxx
    have hhead : x.head? = some c := by rw [hxx]; rfl
    exact hx (by rw [hhead]; simpa using hph)

/-- Multi-part modes: when some neighbor is a sterol/protein (its header
labels carry no part prefix) and every fragment table is present and
complete, the cross-check fails at the removal step. -/
lemma residue_check_multipart_sterol_fails (part nf : String) (cfg : EnergyConfig)
    (hcfg : energy_init part nf = Except.ok cfg) (hnc : part ≠ "complete")
    (rtl : ℤ → String) (res nstar : ℤ) (all_neibs : List ℤ)
    (hmem : nstar ∈ all_neibs) (hsp : is_sterol_protein (rtl nstar) = true)
    (hres_r : ∀ c ∈ numChars res, c ≠ 'r')
    (hn_r : ∀ c ∈ numChars nstar, c ≠ 'r')
    (hn_head : (numChars nstar).head? ∉ [some 'h', some 't', some 'C']) :
    write_energyfile_residue_check cfg.molparts all_neibs
        (complete_headers rtl cfg.molparts cfg.denominator res all_neibs)
      = Except.error CheckError.removeNotInList := by
  have hne := energy_init_molparts_ne_nil part nf cfg hcfg
  have hden := energy_init_denominator_pos part nf cfg hcfg
  have hpn : partsLoop (is_sterol_protein (rtl nstar)) cfg.molparts 0 = ["resid_"] := by
    rw [hsp]; exact partsLoop_true_zero _ hne
  obtain ⟨parthost, ptail, hph_mem, hph_data, hpt_r⟩ :
      ∃ parthost ptail, parthost ∈ partsLoop (is_sterol_protein (rtl res)) cfg.molparts 0 ∧
        parthost.data = residPat ++ ptail ∧ (∀ c ∈ ptail, c ≠ 'r') := by
    by_cases hh : is_sterol_protein (rtl res) = true
    · refine ⟨"resid_", [], ?_, by decide, by decide⟩
      rw [hh, partsLoop_true_zero _ hne]
      simp
    · simp only [Bool.not_eq_true] at hh
      rcases energy_init_cases part nf cfg hcfg with
        ⟨hp, hm, _⟩ | ⟨hp, hm, _⟩ | ⟨hp, hm, _⟩ | ⟨hp, hm, _⟩
      · exact absurd hp hnc
      · exact ⟨"resid_h_", ['h', '_'], by rw [hh, partsLoop_false, hm]; simp,
          by decide, by decide⟩
      · exact ⟨"resid_h_", ['h', '_'], by rw [hh, partsLoop_false, hm]; simp,
          by decide, by decide⟩
      · exact ⟨"resid_C0_", ['C', '0', '_'], by rw [hh, partsLoop_false, hm]; simp,
          by decide, by decide⟩
  have hx_mem := parsed_label_mem_processed rtl cfg.molparts cfg.denominator hden res
    all_neibs nstar hmem parthost "resid_" hph_mem (by rw [hpn]; simp)
  have hx_val := parse_neib_of_label ptail res nstar parthost hph_data hpt_r hres_r hn_r
  rw [hx_val] at hx_mem
  have hparts : ∀ p ∈ cfg.molparts,
      (p.data.drop 6).head? ∈ [some 'h', some 't', some 'C'] := by
    rcases energy_init_cases part nf cfg hcfg with
      ⟨hp, hm, _⟩ | ⟨hp, hm, _⟩ | ⟨hp, hm, _⟩ | ⟨hp, hm, _⟩
    · exact absurd hp hnc
    all_goals (rw [hm]; decide)
  have hlen : 1 < cfg.molparts.length := by
    rcases energy_init_cases part nf cfg hcfg with
      ⟨hp, hm, _⟩ | ⟨hp, hm, _⟩ | ⟨hp, hm, _⟩ | ⟨hp, hm, _⟩
    · exact absurd hp hnc
    all_goals (rw [hm]; decide)
  unfold write_energyfile_residue_check
  exact residue_check_remove_error cfg.molparts all_neibs _ (numChars nstar) hx_mem
    (not_mem_expected_of_head cfg.molparts all_neibs (numChars nstar) hlen hparts hn_head)

/-- Writing one file does not change the existence of a file with a different
normalized path. -/
lemma FS_isfile_write_ne (fs : FS) (p c q : String) (h : normPath p ≠ normPath q) :
    (fs.write p c).isfile q = fs.isfile q := by
  have hb : (normPath q == normPath p) = false :=
    beq_eq_false_iff_ne.mpr (Ne.symm h)
  simp [FS.write, FS.isfile, List.lookup, hb]

/-- Writing one file does not change the content of a file with a different
normalized path. -/
lemma FS_readf_write_ne (fs : FS) (p c q : String) (h : normPath p ≠ normPath q) :
    (fs.write p c).readf q = fs.readf q := by
  have hb : (normPath q == normPath p) = false :=
    beq_eq_false_iff_ne.mpr (Ne.symm h)
  simp [FS.write, FS.readf, List.lookup, hb]

/-! ## Claim theorems -/

/-- C1 counterexample: the claim says a head-to-tail vector with positive
z-component classifies as leaflet 0 and a vector with cosine exactly 0 as
leaflet 1; the code returns 1 for the vector (0,0,1) and 0 for the
orthogonal vector (1,0,0). -/
theorem C1_orientation_counterexample :
    molecule_leaflet_orientation (0, 0, 1) (0, 0, 0) ≠ 0 ∧
    molecule_leaflet_orientation (1, 0, 0) (0, 0, 0) ≠ 1 := by
  constructor <;> norm_num [molecule_leaflet_orientation, dot3, sub3, zAxis]

/-- C1 (amended): `molecule_leaflet_orientation` classifies the molecule as
leaflet 0 when the cosine of head−tail with (0,0,1) is ≤ 0 and as leaflet 1
otherwise (the opposite of the claimed mapping); the counter update of
`create_leaflet_assignment_file` counts leaflet 0 as "upper" and leaflet 1 as
"lower", and its inlined end-of-file duplicate agrees with the function and
the counters. -/
theorem C1_orientation_amended (p1 p2 : ℚ × ℚ × ℚ) :
    (dot3 (sub3 p1 p2) zAxis ≤ 0 → molecule_leaflet_orientation p1 p2 = 0) ∧
    (0 < dot3 (sub3 p1 p2) zAxis → molecule_leaflet_orientation p1 p2 = 1) ∧
    (∀ su sl : ℕ,
      leaflet_count_update (molecule_leaflet_orientation p1 p2) su sl
        = if dot3 (sub3 p1 p2) zAxis ≤ 0 then (su + 1, sl) else (su, sl + 1)) ∧
    (∀ su sl : ℕ,
      leaflet_final_block p1 p2 su sl
        = (molecule_leaflet_orientation p1 p2,
            leaflet_count_update (molecule_leaflet_orientation p1 p2) su sl)) := by
  unfold molecule_leaflet_orientation leaflet_count_update leaflet_final_block
  by_cases h : dot3 (sub3 p1 p2) zAxis ≤ 0
  · simp [h]
  · simp [h, lt_of_not_le h]

/-- C1 amended witness at concrete vectors. -/
theorem C1_orientation_amended_witness :
    molecule_leaflet_orientation (0, 0, -1) (0, 0, 0) = 0 ∧
    molecule_leaflet_orientation (0, 0, 2) (0, 0, 0) = 1 :=
  ⟨(C1_orientation_amended (0, 0, -1) (0, 0, 0)).1 (by norm_num [dot3, sub3, zAxis]),
   (C1_orientation_amended (0, 0, 2) (0, 0, 0)).2.1 (by norm_num [dot3, sub3, zAxis])⟩

/-- C2 counterexample: the claim says a residue with zero neighbors gets one
fragment; the code computes zero fragments for N = 0, D = 40. -/
theorem C2_fragment_count_counterexample : number_of_groupfragments 0 40 ≠ 1 := by
  decide

/-- C2 (amended): for every mode denominator the fragment count computed by
`run_calculation` (and identically by `write_energyfile` and
`check_exist_xvgs`) equals ceil(N/D); in particular N = 85, D = 40 gives 3
fragments and N = 0 gives 0 fragments (no energy run at all). -/
theorem C2_fragment_count_amended (N : ℕ) (part nf : String) (cfg : EnergyConfig)
    (h : energy_init part nf = Except.ok cfg) :
    number_of_groupfragments N cfg.denominator = ceilDiv N cfg.denominator ∧
    number_of_groupfragments 85 40 = 3 ∧
    number_of_groupfragments 0 40 = 0 := by
  exact ⟨number_of_groupfragments_eq_ceilDiv N cfg.denominator
    (energy_init_denominator_pos part nf cfg h), by decide, by decide⟩

/-- C2 amended witness at N = 85 in mode complete. -/
theorem C2_fragment_count_amended_witness :
    number_of_groupfragments 85 40 = ceilDiv 85 40 ∧
    number_of_groupfragments 85 40 = 3 ∧
    number_of_groupfragments 0 40 = 0 := by
  have h := C2_fragment_count_amended 85 "complete" "neighbor_info"
    ⟨["resid_"], "", 40, [""], "all_energies.dat"⟩ (by rfl)
  exact ⟨h.1, h.2.1, h.2.2⟩

/-- C3: for a residue whose species is a sterol or protein, energy-group
construction (`gather_energygroups`) contributes the single whole-residue
group `resid_<id>`, the extraction-entry construction
(`get_relev_energies`) collapses both the host and the neighbor part loop to
the single `resid_` part, and the aggregation loop of `write_energyfile`
uses the single empty part label rendered as `w` — in every configured part
mode, never the multi-part labels of ordinary lipids. -/
theorem C3_sterol_protein_single_part (part nf : String) (cfg : EnergyConfig)
    (hcfg : energy_init part nf = Except.ok cfg) (resid_to_lipid : ℤ → String)
    (idx : ℤ) (hsp : is_sterol_protein (resid_to_lipid idx) = true) :
    energygroups_of_index resid_to_lipid cfg.molparts idx = ["resid_" ++ toString idx] ∧
    partsLoop (is_sterol_protein (resid_to_lipid idx)) cfg.molparts 0 = ["resid_"] ∧
    writePartsLoop (resid_to_lipid idx == "CHL1") cfg.molparts 0 = [""] ∧
    interLabel "" = "w" := by
  have hne := energy_init_molparts_ne_nil part nf cfg hcfg
  have hchl : resid_to_lipid idx = "CHL1" := (is_sterol_protein_iff _).mp hsp
  refine ⟨?_, ?_, ?_, rfl⟩
  · simp [energygroups_of_index, hsp]
  · rw [hsp]
    exact partsLoop_true_zero _ hne
  · rw [hchl]
    simp only [beq_self_eq_true]
    exact writePartsLoop_true_zero _ hne

/-- C3 witness: a cholesterol residue in mode carbons. -/
theorem C3_sterol_protein_single_part_witness :
    energygroups_of_index (fun _ => "CHL1")
        ["resid_C0_", "resid_C1_", "resid_C2_", "resid_C3_", "resid_C4_", "resid_C5_",
          "resid_C6_"] 3
      = ["resid_" ++ toString (3 : ℤ)] ∧
    partsLoop (is_sterol_protein ((fun _ => "CHL1") (3 : ℤ)))
        ["resid_C0_", "resid_C1_", "resid_C2_", "resid_C3_", "resid_C4_", "resid_C5_",
          "resid_C6_"] 0
      = ["resid_"] ∧
    writePartsLoop (((fun _ => "CHL1") (3 : ℤ)) == "CHL1")
        ["resid_C0_", "resid_C1_", "resid_C2_", "resid_C3_", "resid_C4_", "resid_C5_",
          "resid_C6_"] 0
      = [""] ∧
    interLabel "" = "w" := by
  have h := C3_sterol_protein_single_part "carbons" "neighbor_info"
    ⟨["resid_C0_", "resid_C1_", "resid_C2_", "resid_C3_", "resid_C4_", "resid_C5_",
        "resid_C6_"], "carbons", 4,
      ["C0_", "C1_", "C2_", "C3_", "C4_", "C5_", "C6_"], "all_energies_carbons.dat"⟩
    (by rfl) (fun _ => "CHL1") 3 (by decide)
  exact ⟨h.1, h.2.1, h.2.2.1, h.2.2.2⟩

/-- C4 evidence: in mode complete, with declared neighbors [5, 7] and the
fragment table containing only neighbor 5's entries (neighbor 7 omitted),
the cross-check fails with the earlier list-removal ValueError — the
processed label is the string "5" while the expected list holds the ints
5 and 7 — instead of the intended 'Not all neighbours found' condition. -/
theorem C4_not_all_neighbours_evidence :
    write_energyfile_residue_check ["resid_"] [5, 7]
        [[legendCol "Coul-SR:resid_1-resid_5", legendCol "LJ-SR:resid_1-resid_5"]]
      = Except.error CheckError.removeNotInList ∧
    CheckError.removeNotInList ≠ CheckError.notAllNeighboursFound := by
  exact ⟨by rfl, by decide⟩

/-- C5: the end-of-residue cross-check of `write_energyfile` compares header
labels (strings, with no part prefix for sterol neighbors) against the
expected all-time neighbor list (ints in mode complete, part-prefixed
strings in multi-part modes).  Hence (first conjunct) in mode complete every
residue with at least one neighbor makes the list-removal step raise
ValueError even when every fragment table is present and complete, and
(second conjunct) in any multi-part mode the same happens whenever some
neighbor is a sterol/protein, i.e. collapsed to a whole-residue group.
(The hypotheses on `numChars` state that the decimal rendering of a residue
id contains no letter `r` and does not start with `h`, `t` or `C` — true of
every decimal numeral.) -/
theorem C5_cross_check_type_mismatch :
    (∀ (rtl : ℤ → String) (res : ℤ) (all_neibs : List ℤ) (nf : String)
       (cfg : EnergyConfig), energy_init "complete" nf = Except.ok cfg →
      all_neibs ≠ [] →
      write_energyfile_residue_check cfg.molparts all_neibs
          (complete_headers rtl cfg.molparts cfg.denominator res all_neibs)
        = Except.error CheckError.removeNotInList) ∧
    (∀ (part nf : String) (cfg : EnergyConfig), energy_init part nf = Except.ok cfg →
      part ≠ "complete" →
      ∀ (rtl : ℤ → String) (res nstar : ℤ) (all_neibs : List ℤ),
      nstar ∈ all_neibs → is_sterol_protein (rtl nstar) = true →
      (∀ c ∈ numChars res, c ≠ 'r') → (∀ c ∈ numChars nstar, c ≠ 'r') →
      (numChars nstar).head? ∉ [some 'h', some 't', some 'C'] →
      write_energyfile_residue_check cfg.molparts all_neibs
          (complete_headers rtl cfg.molparts cfg.denominator res all_neibs)
        = Except.error CheckError.removeNotInList) := by
  constructor
  · intro rtl res all_neibs nf cfg hcfg hne
    rcases energy_init_cases "complete" nf cfg hcfg with
      ⟨_, hm, hd⟩ | ⟨hp, _, _⟩ | ⟨hp, _, _⟩ | ⟨hp, _, _⟩
    · rw [hm, hd]
      exact residue_check_complete_fails rtl res all_neibs hne
    all_goals exact absurd hp.symm (by decide)
  · intro part nf cfg hcfg hnc rtl res nstar all_neibs hmem hsp hr1 hr2 hh
    exact residue_check_multipart_sterol_fails part nf cfg hcfg hnc rtl res nstar
      all_neibs hmem hsp hr1 hr2 hh

/-- C5 witness: mode complete with neighbor [5], and mode head-tail with the
sterol neighbor 7 among [5, 7]. -/
theorem C5_cross_check_type_mismatch_witness :
    write_energyfile_residue_check ["resid_"] [5]
        (complete_headers (fun _ => "DPPC") ["resid_"] 40 1 [5])
      = Except.error CheckError.removeNotInList ∧
    write_energyfile_residue_check ["resid_h_", "resid_t_"] [5, 7]
        (complete_headers (fun i => if i = 7 then "CHL1" else "DPPC")
          ["resid_h_", "resid_t_"] 20 1 [5, 7])
      = Except.error CheckError.removeNotInList := by
  constructor
  · exact C5_cross_check_type_mismatch.1 (fun _ => "DPPC") 1 [5] "neighbor_info"
      ⟨["resid_"], "", 40, [""], "all_energies.dat"⟩ (by rfl) (by decide)
  · exact C5_cross_check_type_mismatch.2 "head-tail" "neighbor_info"
      ⟨["resid_h_", "resid_t_"], "head-tail", 20, ["h_", "t_"],
        "all_energies_headtail.dat"⟩ (by rfl) (by decide)
      (fun i => if i = 7 then "CHL1" else "DPPC") 1 7 [5, 7]
      (by decide) (by decide) (by decide) (by decide) (by decide)

/-- C6 counterexample: the claim says no neighbor residue id appears more
than once in a written row; when the engine reports two atom indices of the
same residue (index_to_resid maps both 1 and 2 to residue 5) the row is
"5,5" — the id appears twice. -/
theorem C6_neighbor_row_counterexample :
    determine_neighbors_row_ids (fun _ => 5) [1, 2] = [5, 5] ∧
    determine_neighbors_row_string (determine_neighbors_row_ids (fun _ => 5) [1, 2])
      = "5,5" ∧
    ¬ (determine_neighbors_row_ids (fun _ => 5) [1, 2]).Nodup := by
  refine ⟨rfl, by rfl, by decide⟩

/-- C6 (amended): the row written by `determine_neighbors` contains one
translated residue id per engine-reported atom index, comma-joined in report
order and NOT deduplicated; deduplication happens only when
`get_neighbor_dict` parses the table back, which yields a duplicate-free
list with exactly the same members. -/
theorem C6_neighbor_row_amended (index_to_resid : ℤ → ℤ) (idxs : List ℤ) :
    determine_neighbors_row_ids index_to_resid idxs = idxs.map index_to_resid ∧
    (determine_neighbors_row_ids index_to_resid idxs).length = idxs.length ∧
    (get_neighbor_dict_neiblist (determine_neighbors_row_ids index_to_resid idxs)).Nodup ∧
    (∀ x, x ∈ get_neighbor_dict_neiblist (determine_neighbors_row_ids index_to_resid idxs)
      ↔ x ∈ idxs.map index_to_resid) := by
  refine ⟨rfl, by simp [determine_neighbors_row_ids], List.nodup_dedup _, fun x => ?_⟩
  simp [get_neighbor_dict_neiblist, determine_neighbors_row_ids, List.mem_dedup]

/-- C7: flip-flop segmentation.  For leaflet changes 0→1 at t=100, 1→0 at
t=200 and 0→1 at t=15000: the change points are exactly those three samples,
the only split boundary is t=15000 (gap 14800 > 10000, while gap 100 ≤ 10000
keeps 100 and 200 together), so the changes at 100 and 200 form one segment
whose start/end leaflets differ (no round trip recorded) and the change at
15000 starts a new segment; and in general a segment is recorded in the
completed-round-trip table exactly when its first and last change-point
samples report the same leaflet. -/
theorem C7_flipflop_segmentation :
    (change_points [(⟨42, "DPPC", 0, 0⟩ : FlipRow), ⟨42, "DPPC", 1, 100⟩,
        ⟨42, "DPPC", 0, 200⟩, ⟨42, "DPPC", 1, 15000⟩]
      = [⟨42, "DPPC", 1, 100⟩, ⟨42, "DPPC", 0, 200⟩, ⟨42, "DPPC", 1, 15000⟩]) ∧
    (split_times [(⟨42, "DPPC", 1, 100⟩ : FlipRow), ⟨42, "DPPC", 0, 200⟩,
        ⟨42, "DPPC", 1, 15000⟩]
      = [0, 15000]) ∧
    (segments [(⟨42, "DPPC", 1, 100⟩ : FlipRow), ⟨42, "DPPC", 0, 200⟩,
        ⟨42, "DPPC", 1, 15000⟩]
      = [[⟨42, "DPPC", 1, 100⟩, ⟨42, "DPPC", 0, 200⟩], [⟨42, "DPPC", 1, 15000⟩]]) ∧
    (round_trips [(⟨42, "DPPC", 1, 100⟩ : FlipRow), ⟨42, "DPPC", 0, 200⟩,
        ⟨42, "DPPC", 1, 15000⟩]
      = [(⟨42, "DPPC", 1, 15000⟩, ⟨42, "DPPC", 1, 15000⟩)]) ∧
    (∀ (seg : List FlipRow) (s e : FlipRow), seg.head? = some s → seg.getLast? = some e →
      (recorded_of seg = some (s, e) ↔ s.leaflet = e.leaflet)) := by
  refine ⟨by norm_num [change_points, change_points_go],
    by norm_num [split_times, split_gaps],
    by norm_num [segments, split_times, split_gaps, segments_from, List.filter],
    by norm_num [round_trips, segments, split_times, split_gaps, segments_from,
      List.filter, List.filterMap, recorded_of], ?_⟩
  intro seg s e hs he
  have hcomp : recorded_of seg = if s.leaflet = e.leaflet then some (s, e) else none := by
    unfold recorded_of
    rw [hs, he]
  rw [hcomp]
  constructor
  · intro hrec
    by_contra hne
    rw [if_neg hne] at hrec
    cases hrec
  · intro hl
    rw [if_pos hl]

/-- C7 witness for the general recorded-iff-same-leaflet conjunct, at the
singleton segment of the example. -/
theorem C7_flipflop_segmentation_witness :
    recorded_of [(⟨42, "DPPC", 1, 15000⟩ : FlipRow)]
      = some (⟨42, "DPPC", 1, 15000⟩, ⟨42, "DPPC", 1, 15000⟩) :=
  (C7_flipflop_segmentation.2.2.2.2 [(⟨42, "DPPC", 1, 15000⟩ : FlipRow)]
    ⟨42, "DPPC", 1, 15000⟩ ⟨42, "DPPC", 1, 15000⟩ rfl rfl).mpr rfl

/-- C8: invoking the rerun or extraction step again through
`run_calculation` with overwrite disabled and the corresponding output file
already present (.edr trace for the rerun, .xvg table for the extraction)
performs zero `mdrun` and zero `gmx energy` invocations and leaves the
contents of both output files unchanged.  The path-inequality hypotheses
say that the fragment's mdp/tpr artifacts (always rewritten) are distinct
files from the edr and xvg outputs. -/
theorem C8_idempotent_skip (eng : EngineOut) (temperature energygroups : String)
    (energypath res frag part : String) (fs : FS)
    (hedr : fs.isfile (energyf_output_path energypath res frag part) = true)
    (hxvg : fs.isfile (g_energy_output_path energypath res frag part) = true)
    (h1 : normPath (mdpout_path energypath res frag part)
      ≠ normPath (energyf_output_path energypath res frag part))
    (h2 : normPath (tprout_path energypath res frag part)
      ≠ normPath (energyf_output_path energypath res frag part))
    (h3 : normPath (mdpout_path energypath res frag part)
      ≠ normPath (g_energy_output_path energypath res frag part))
    (h4 : normPath (tprout_path energypath res frag part)
      ≠ normPath (g_energy_output_path energypath res frag part))
    (h5 : normPath (mdpout_path energypath res frag part)
      ≠ normPath (xvg_out_path energypath res frag part))
    (h6 : normPath (tprout_path energypath res frag part)
      ≠ normPath (xvg_out_path energypath res frag part)) :
    (run_calculation_fragment false eng temperature energygroups
        energypath res frag part fs).2.2.1 = 0 ∧
    (run_calculation_fragment false eng temperature energygroups
        energypath res frag part fs).2.2.2 = 0 ∧
    (run_calculation_fragment false eng temperature energygroups
        energypath res frag part fs).1.readf (energyf_output_path energypath res frag part)
      = fs.readf (energyf_output_path energypath res frag part) ∧
    (run_calculation_fragment false eng temperature energygroups
        energypath res frag part fs).1.readf (xvg_out_path energypath res frag part)
      = fs.readf (xvg_out_path energypath res frag part) := by
  unfold run_calculation_fragment
  have he2 : (((fs.write (mdpout_path energypath res frag part)
        (create_MDP_content temperature energygroups)).write
          (tprout_path energypath res frag part) eng.grompp_tpr).write
            (mdpout_path energypath res frag part) eng.grompp_mdp).isfile
      (energyf_output_path energypath res frag part) = true := by
    rw [FS_isfile_write_ne _ _ _ _ h1, FS_isfile_write_ne _ _ _ _ h2,
      FS_isfile_write_ne _ _ _ _ h1, hedr]
  have hx2 : (((fs.write (mdpout_path energypath res frag part)
        (create_MDP_content temperature energygroups)).write
          (tprout_path energypath res frag part) eng.grompp_tpr).write
            (mdpout_path energypath res frag part) eng.grompp_mdp).isfile
      (g_energy_output_path energypath res frag part) = true := by
    rw [FS_isfile_write_ne _ _ _ _ h3, FS_isfile_write_ne _ _ _ _ h4,
      FS_isfile_write_ne _ _ _ _ h3, hxvg]
  simp only [he2, hx2, Bool.not_false, Bool.and_true, if_pos]
  refine ⟨by trivial, by trivial, ?_, ?_⟩
  · rw [FS_readf_write_ne _ _ _ _ h1, FS_readf_write_ne _ _ _ _ h2,
      FS_readf_write_ne _ _ _ _ h1]
  · rw [FS_readf_write_ne _ _ _ _ h5, FS_readf_write_ne _ _ _ _ h6,
      FS_readf_write_ne _ _ _ _ h5]

/-- C8 witness at a concrete file system whose edr and xvg files already
exist; the xvg skip test succeeds through the normalized double-slash
spelling of the same file. -/
theorem C8_idempotent_skip_witness :
    (run_calculation_fragment false ⟨"T", "M", "E", "X"⟩ "300" "resid_1 resid_5"
        "energy/" "1" "0" ""
        (((FS.mk []).write (xvg_out_path "energy/" "1" "0" "") "X0").write
          (energyf_output_path "energy/" "1" "0" "") "E0")).2.2.1 = 0 ∧
    (run_calculation_fragment false ⟨"T", "M", "E", "X"⟩ "300" "resid_1 resid_5"
        "energy/" "1" "0" ""
        (((FS.mk []).write (xvg_out_path "energy/" "1" "0" "") "X0").write
          (energyf_output_path "energy/" "1" "0" "") "E0")).2.2.2 = 0 ∧
    (run_calculation_fragment false ⟨"T", "M", "E", "X"⟩ "300" "resid_1 resid_5"
        "energy/" "1" "0" ""
        (((FS.mk []).write (xvg_out_path "energy/" "1" "0" "") "X0").write
          (energyf_output_path "energy/" "1" "0" "") "E0")).1.readf
        (energyf_output_path "energy/" "1" "0" "")
      = (((FS.mk []).write (xvg_out_path "energy/" "1" "0" "") "X0").write
          (energyf_output_path "energy/" "1" "0" "") "E0").readf
          (energyf_output_path "energy/" "1" "0" "") ∧
    (run_calculation_fragment false ⟨"T", "M", "E", "X"⟩ "300" "resid_1 resid_5"
        "energy/" "1" "0" ""
        (((FS.mk []).write (xvg_out_path "energy/" "1" "0" "") "X0").write
          (energyf_output_path "energy/" "1" "0" "") "E0")).1.readf
        (xvg_out_path "energy/" "1" "0" "")
      = (((FS.mk []).write (xvg_out_path "energy/" "1" "0" "") "X0").write
          (energyf_output_path "energy/" "1" "0" "") "E0").readf
          (xvg_out_path "energy/" "1" "0" "") :=
  C8_idempotent_skip ⟨"T", "M", "E", "X"⟩ "300" "resid_1 resid_5" "energy/" "1" "0" ""
    (((FS.mk []).write (xvg_out_path "energy/" "1" "0" "") "X0").write
      (energyf_output_path "energy/" "1" "0" "") "E0")
    (by decide) (by decide) (by decide) (by decide) (by decide) (by decide)
    (by decide) (by decide)

/-- C9: constructing the energy orchestrator with a part mode outside the
four known modes fails immediately with the InvalidInput ValueError (and
every known mode constructs successfully, so no default is substituted);
and neighbor selection-file construction for a residue whose species is
configured fails immediately with the InvalidInput ValueError for a
reference-strategy name outside P / bothtails / glycerol / tails_com. -/
theorem C9_invalid_input_validation :
    (∀ part nf, part ∉ knownparts →
      energy_init part nf = Except.error "Part keyword specified is not known.") ∧
    (∀ part nf, part ∈ knownparts → ∃ cfg, energy_init part nf = Except.ok cfg) ∧
    (∀ (resid_to_lipid : ℤ → String) (molecules resnames : List String)
        (ref_atm : String → String) (tail_atm : String → List (List String))
        (cutoff : String) (resid : ℤ) (refatoms : String),
      resid_to_lipid resid ∈ molecules →
      refatoms ∉ ["P", "bothtails", "glycerol", "tails_com"] →
      create_selectionfile_neighborsearch resid_to_lipid molecules resnames ref_atm
          tail_atm cutoff resid refatoms
        = some (Except.error ("Wrong input for refatoms with: " ++ refatoms))) := by
  refine ⟨?_, ?_, ?_⟩
  · intro part nf h
    unfold energy_init
    rw [if_pos h]
  · intro part nf h
    simp only [knownparts, List.mem_cons, List.not_mem_nil, or_false] at h
    rcases h with rfl | rfl | rfl | rfl
    · exact ⟨_, rfl⟩
    · exact ⟨_, rfl⟩
    · exact ⟨_, rfl⟩
    · exact ⟨_, rfl⟩
  · intro rtl mols resn ra ta co resid refatoms hmem hra
    simp only [List.mem_cons, List.not_mem_nil, or_false, not_or] at hra
    obtain ⟨hr1, hr2, hr3, hr4⟩ := hra
    unfold create_selectionfile_neighborsearch
    rw [if_neg (fun hn => hn hmem)]
    simp only [if_neg hr1, if_neg hr2, if_neg hr3, if_neg hr4]

/-- C9 witness: the unknown part mode "half" and, for a configured DPPC
residue, the unknown reference strategy "com". -/
theorem C9_invalid_input_validation_witness :
    energy_init "half" "neighbor_info"
      = Except.error "Part keyword specified is not known." ∧
    create_selectionfile_neighborsearch (fun _ => "DPPC") ["DPPC"] ["DPPC"]
        (fun _ => "P") (fun _ => [["C22"], ["C32"]]) "1.0" 1 "com"
      = some (Except.error ("Wrong input for refatoms with: " ++ "com")) :=
  ⟨C9_invalid_input_validation.1 "half" "neighbor_info" (by decide),
   C9_invalid_input_validation.2.2 (fun _ => "DPPC") ["DPPC"] ["DPPC"]
     (fun _ => "P") (fun _ => [["C22"], ["C32"]]) "1.0" 1 "com"
     (by decide) (by decide)⟩

/-- C10 (implicit behavior confirmed): every segment containing exactly one
change point is recorded in the completed-round-trip output — its single
sample is both start and end, so the same-leaflet test holds trivially —
producing a row whose start time equals its end time. -/
theorem C10_singleton_segment_recorded (events : List FlipRow) (r : FlipRow)
    (h : [r] ∈ segments events) :
    (r, r) ∈ round_trips events ∧
    (r.resid, r.resname, r.time, r.time, r.leaflet) ∈ round_trip_rows events := by
  have hrec : recorded_of [r] = some (r, r) := by simp [recorded_of]
  have h1 : (r, r) ∈ round_trips events := List.mem_filterMap.mpr ⟨[r], h, hrec⟩
  exact ⟨h1, List.mem_map.mpr ⟨(r, r), h1, rfl⟩⟩

/-- C10 witness: a residue that crosses once at t = 50 and never returns is
recorded with start time = end time = 50. -/
theorem C10_singleton_segment_recorded_witness :
    ((⟨7, "CHL1", 1, 50⟩ : FlipRow), (⟨7, "CHL1", 1, 50⟩ : FlipRow)) ∈
      round_trips (change_points [(⟨7, "CHL1", 0, 0⟩ : FlipRow), ⟨7, "CHL1", 1, 50⟩]) ∧
    ((7 : ℤ), "CHL1", (50 : ℚ), (50 : ℚ), (1 : ℤ)) ∈
      round_trip_rows (change_points [(⟨7, "CHL1", 0, 0⟩ : FlipRow), ⟨7, "CHL1", 1, 50⟩]) :=
  C10_singleton_segment_recorded
    (change_points [(⟨7, "CHL1", 0, 0⟩ : FlipRow), ⟨7, "CHL1", 1, 50⟩])
    ⟨7, "CHL1", 1, 50⟩
    (by norm_num [change_points, change_points_go, segments, split_times, split_gaps,
      segments_from, List.filter])

end Bilana
